import Mathlib

/-!
Shallow embedding of the IBC light-client validation logic of
`src/ibc/src/component/client/stateful.rs` (modules `create_client` and
`update_client`), together with the shapes of its external collaborators
(the client/consensus-state store, the Tendermint data types from the `ibc`
and `tendermint` dependencies, and the cryptographic header verifier).

Conventions of the embedding:
- timestamps and durations are `Nat` (nanoseconds);
- hashes, signed-header blobs, commitment roots and verifier details are
  opaque `Nat` identifiers;
- the cryptographic verifier (`ProdVerifier::verify` in the source) is an
  explicit function parameter of type `Verifier`, so that properties of the
  form "the verdict is never consulted on this path" become quantification
  over all verifiers;
- fallible Rust paths (`?`, `anyhow` errors) are `Except Error`.
-/

namespace IbcClient

/-- An IBC height, `ibc::Height`: a pair of revision number and revision
height. The derived Rust `Ord` on this struct is lexicographic in field
order. -/
structure Height where
  revisionNumber : Nat
  revisionHeight : Nat
  deriving DecidableEq, Repr

/-- Lexicographic `<=` on heights, matching the derived `Ord` of the Rust
`ibc::Height` struct (revision number first, then revision height). -/
def Height.leb (a b : Height) : Bool :=
  Nat.blt a.revisionNumber b.revisionNumber ||
    (a.revisionNumber == b.revisionNumber && Nat.ble a.revisionHeight b.revisionHeight)

/-- Supported light-client type tags. Only the Tendermint (BFT-header)
variant is specified; `other` stands for any non-Tendermint variant of the
`Any*` unions (e.g. the mock client of the `ibc` crate). -/
inductive ClientType where
  | tendermint
  | other
  deriving DecidableEq, Repr

/-- A client identifier, `ibc ClientId`: in textual form
`"<client_type>-<counter>"`; modelled as the pair. -/
structure ClientId where
  clientType : ClientType
  counter : Nat
  deriving DecidableEq, Repr

/-- An opaque Tendermint validator set (`tendermint::validator::Set`).
`hash` models the `hash()` method (a deterministic function of the set);
`setId` keeps distinct sets distinguishable independently of their hash. -/
structure ValidatorSet where
  setId : Nat
  hash : Nat
  deriving DecidableEq, Repr

/-- The inner signed header of a Tendermint header
(`untrusted_header.signed_header`), with the fields the validation logic
and the consensus-state derivation read. `commit` is the opaque signature
data consumed only by the cryptographic verifier. -/
structure SignedHeader where
  chainIdVersion : Nat
  blockHeight : Nat
  time : Nat
  nextValidatorsHash : Nat
  appHash : Nat
  commit : Nat
  deriving DecidableEq, Repr

/-- A Tendermint light-client header (`ibc` `TendermintHeader`): signed
header, validator set, and the declared trusted anchor data. -/
structure TendermintHeader where
  signedHeader : SignedHeader
  validatorSet : ValidatorSet
  trustedHeight : Height
  trustedValidatorSet : ValidatorSet
  deriving DecidableEq, Repr

/-- `TendermintHeader::height()` of the `ibc` crate: an IBC height built
from the chain-id revision and the block height of the signed header. -/
def TendermintHeader.height (h : TendermintHeader) : Height :=
  ⟨h.signedHeader.chainIdVersion, h.signedHeader.blockHeight⟩

/-- A Tendermint consensus state (`ibc` `TendermintConsensusState`):
timestamp, commitment root, next-validator-set hash. -/
structure TendermintConsensusState where
  timestamp : Nat
  root : Nat
  nextValidatorsHash : Nat
  deriving DecidableEq, Repr

/-- `From<TendermintHeader> for TendermintConsensusState` of the `ibc`
crate: the consensus state a header would commit, taken from the signed
header's time, app hash and next-validator-set hash. -/
def tendermintConsensusStateFrom (h : TendermintHeader) : TendermintConsensusState :=
  { timestamp := h.signedHeader.time
    root := h.signedHeader.appHash
    nextValidatorsHash := h.signedHeader.nextValidatorsHash }

/-- A Tendermint client state (`ibc` `TendermintClientState`), with the
fields the validation logic reads: chain-id revision version, trust
threshold fraction, trusting period, max clock drift, frozen flag, latest
verified height. -/
structure TendermintClientState where
  chainIdVersion : Nat
  trustNumerator : Nat
  trustDenominator : Nat
  trustingPeriod : Nat
  maxClockDrift : Nat
  frozen : Bool
  latestHeight : Height
  deriving DecidableEq, Repr

/-- The `AnyClientState` union. The `other` variant models any
non-Tendermint client variant; it carries its own frozen flag and latest
height so that the dispatching methods below stay total, as the union's
methods do in Rust. -/
inductive AnyClientState where
  | tendermint (cs : TendermintClientState)
  | other (frozen : Bool) (latestHeight : Height)
  deriving DecidableEq, Repr

/-- `AnyClientState::is_frozen()`, dispatching on the variant. -/
def AnyClientState.isFrozen : AnyClientState → Bool
  | .tendermint cs => cs.frozen
  | .other f _ => f

/-- `AnyClientState::latest_height()`, dispatching on the variant. -/
def AnyClientState.latestHeight : AnyClientState → Height
  | .tendermint cs => cs.latestHeight
  | .other _ lh => lh

/-- `AnyClientState::expired(elapsed)`: for a Tendermint client, elapsed
time strictly greater than the trusting period; the mock variant never
expires. -/
def AnyClientState.expired : AnyClientState → Nat → Bool
  | .tendermint cs, elapsed => Nat.blt cs.trustingPeriod elapsed
  | .other _ _, _ => false

/-- `AnyClientState::client_type()`, dispatching on the variant. -/
def AnyClientState.clientType : AnyClientState → ClientType
  | .tendermint _ => .tendermint
  | .other _ _ => .other

/-- The `AnyHeader` union of submittable headers. -/
inductive AnyHeader where
  | tendermint (h : TendermintHeader)
  | other
  deriving DecidableEq, Repr

/-- The `AnyConsensusState` union of stored consensus states. -/
inductive AnyConsensusState where
  | tendermint (c : TendermintConsensusState)
  | other
  deriving DecidableEq, Repr

/-- The error outcomes of the two validators. The first twelve cases are
the error sites of `stateful.rs` that the specification's taxonomy names;
`latestConsensusNotFound`, `negativeElapsed`, `consensusNotTendermint`,
`invalidHeaderHeight` and `optionsError` are the remaining error sites of
the same source file (propagated store/conversion failures). -/
inductive Error where
  | notFound
  | frozen
  | expired
  | clientTypeMismatch
  | headerTypeMismatch
  | alreadyCommitted
  | revisionMismatch
  | heightNotMonotonic
  | missingTrustedAnchor
  | validatorSetHashMismatch
  | insufficientTrust (tally : Nat)
  | invalidHeader (detail : Nat)
  | latestConsensusNotFound
  | negativeElapsed
  | consensusNotTendermint
  | invalidHeaderHeight
  | optionsError
  deriving DecidableEq, Repr

/-- `AnyConsensusState::as_tendermint()`: downcast to the Tendermint
variant, failing otherwise. -/
def AnyConsensusState.asTendermint : AnyConsensusState → Except Error TendermintConsensusState
  | .tendermint c => .ok c
  | .other => .error .consensusNotTendermint

/-- `ClientData` as stored per client: its id and (wrapped) client state. -/
structure ClientData where
  clientId : ClientId
  clientState : AnyClientState
  deriving DecidableEq, Repr

/-- The read view of the store (`StateExt`) that the validators consume:
client records, verified consensus states per (height, client), the client
counter, and the current block timestamp. -/
structure Store where
  clientData : ClientId → Option ClientData
  consensusStateAt : Height → ClientId → Option AnyConsensusState
  clientCounter : Nat
  blockTimestamp : Nat

/-- `MsgUpdateAnyClient`: client id and submitted header. -/
structure MsgUpdateAnyClient where
  clientId : ClientId
  header : AnyHeader
  deriving DecidableEq, Repr

/-- `MsgCreateAnyClient`: the initial client state (whose type tag is
read). -/
structure MsgCreateAnyClient where
  clientState : AnyClientState
  deriving DecidableEq, Repr

/-- `tendermint::Time::duration_since` of the dependency: the elapsed
duration from `earlier` to `now`, failing when `now` is strictly earlier
than `earlier` (a negative duration). -/
def durationSince (now earlier : Nat) : Except Error Nat :=
  if now < earlier then .error .negativeElapsed else .ok (now - earlier)

/-- Conversion of a `u64` revision height to a single-component
`tendermint::block::Height` (`trusted_height.revision_height.try_into()`),
which fails beyond `i64::MAX`. -/
def tmHeightTryFrom (h : Nat) : Except Error Nat :=
  if h < 2 ^ 63 then .ok h else .error .invalidHeaderHeight

/-- Light-client verification options (`tendermint` `Options`): trust
threshold fraction, trusting period, clock drift. -/
structure Options where
  trustNumerator : Nat
  trustDenominator : Nat
  trustingPeriod : Nat
  clockDrift : Nat
  deriving DecidableEq, Repr

/-- `TendermintClientState::as_light_client_options()`: packages the trust
threshold, trusting period and clock drift. Modelled from the dependency:
the trust-threshold construction rejects a zero denominator or a fraction
above one. -/
def asLightClientOptions (cs : TendermintClientState) : Except Error Options :=
  if cs.trustDenominator = 0 ∨ cs.trustDenominator < cs.trustNumerator then
    .error .optionsError
  else
    .ok { trustNumerator := cs.trustNumerator
          trustDenominator := cs.trustDenominator
          trustingPeriod := cs.trustingPeriod
          clockDrift := cs.maxClockDrift }

/-- The trusted-state view fed to the verifier (`TrustedBlockState`). -/
structure TrustedBlockState where
  headerTime : Nat
  height : Nat
  nextValidators : ValidatorSet
  nextValidatorsHash : Nat
  deriving DecidableEq, Repr

/-- The untrusted-state view fed to the verifier (`UntrustedBlockState`);
the source passes `next_validators: None`. -/
structure UntrustedBlockState where
  signedHeader : SignedHeader
  validators : ValidatorSet
  nextValidators : Option ValidatorSet
  deriving DecidableEq, Repr

/-- The three-way verdict of the cryptographic verifier. -/
inductive Verdict where
  | success
  | notEnoughTrust (tally : Nat)
  | invalid (detail : Nat)
  deriving DecidableEq, Repr

/-- The shape of `ProdVerifier::verify`: untrusted state, trusted state,
options, current time, to a verdict. The validators are parametrised over
it, reflecting that it is an external collaborator. -/
def Verifier : Type :=
  UntrustedBlockState → TrustedBlockState → Options → Nat → Verdict

/-- `ClientId::new(client_type, counter)` of the `ibc` crate: formats
`"<type>-<counter>"` and validates the identifier; the validation accepts
every identifier derived from an enum type tag, so the construction is
total here. -/
def ClientId.mkNew (t : ClientType) (counter : Nat) : Except Error ClientId :=
  .ok ⟨t, counter⟩

/-- `CreateClientCheck::validate`: read the client counter and check that a
client id can be built from the requested client type and the counter. -/
def createValidate (s : Store) (msg : MsgCreateAnyClient) : Except Error Unit :=
  match ClientId.mkNew msg.clientState.clientType s.clientCounter with
  | .error e => .error e
  | .ok _ => .ok ()

/-- `client_is_not_frozen`: reject a frozen client. -/
def clientIsNotFrozen (client : ClientData) : Except Error Unit :=
  if client.clientState.isFrozen then .error .frozen else .ok ()

/-- `Inner::client_is_not_expired`: fetch the consensus state at the
client's latest height, downcast it to Tendermint, compute the elapsed
time from its timestamp to the block timestamp, and reject if the client
state says that duration is expired. -/
def clientIsNotExpired (s : Store) (client : ClientData) : Except Error Unit :=
  match s.consensusStateAt client.clientState.latestHeight client.clientId with
  | none => .error .latestConsensusNotFound
  | some latestConsensusState =>
    match latestConsensusState with
    | .other => .error .consensusNotTendermint
    | .tendermint latestTm =>
      match durationSince s.blockTimestamp latestTm.timestamp with
      | .error e => .error e
      | .ok timeElapsed =>
        if client.clientState.expired timeElapsed then .error .expired else .ok ()

/-- `Inner::update_is_already_committed`: derive the consensus state the
header would commit; if a consensus state is already stored at the
header's claimed height, report whether it is identical (downcasting the
stored one, whose failure propagates); a missing stored state is simply
"not committed". -/
def updateIsAlreadyCommitted (s : Store) (clientId : ClientId) (untrustedHeader : TendermintHeader) :
    Except Error Bool :=
  let untrustedConsensusState := tendermintConsensusStateFrom untrustedHeader
  match s.consensusStateAt untrustedHeader.height clientId with
  | some storedConsensusState =>
    match storedConsensusState.asTendermint with
    | .error e => .error e
    | .ok storedTm => .ok (decide (storedTm = untrustedConsensusState))
  | none => .ok false

/-- `header_revision_matches_client_state`: the revision number of the
header's height must equal the chain-id version of the client state. -/
def headerRevisionMatchesClientState (trustedClientState : TendermintClientState)
    (untrustedHeader : TendermintHeader) : Except Error Unit :=
  if untrustedHeader.height.revisionNumber ≠ trustedClientState.chainIdVersion then
    .error .revisionMismatch
  else
    .ok ()

/-- `header_height_is_consistent`: the header's height must be strictly
greater than its declared trusted height. -/
def headerHeightIsConsistent (untrustedHeader : TendermintHeader) : Except Error Unit :=
  if Height.leb untrustedHeader.height untrustedHeader.trustedHeight then
    .error .heightNotMonotonic
  else
    .ok ()

/-- `verify_header_validator_set`: the hash of the header's declared
trusted validator set must equal the next-validator-set hash of the stored
trusted consensus state; on success the trusted validator set is passed
on. -/
def verifyHeaderValidatorSet (untrustedHeader : TendermintHeader)
    (lastTrustedConsensusState : TendermintConsensusState) : Except Error ValidatorSet :=
  if untrustedHeader.trustedValidatorSet.hash ≠ lastTrustedConsensusState.nextValidatorsHash then
    .error .validatorSetHashMismatch
  else
    .ok untrustedHeader.trustedValidatorSet

/-- The opening of `UpdateClientCheck::validate`: presence lookup
(`client_is_present`), frozen check, expiry check, and the two downcasts of
client state and header to their Tendermint variants. -/
def validatePrefix (s : Store) (msg : MsgUpdateAnyClient) :
    Except Error (ClientData × TendermintClientState × TendermintHeader) :=
  match s.clientData msg.clientId with
  | none => .error .notFound
  | some clientData =>
    match clientIsNotFrozen clientData with
    | .error e => .error e
    | .ok _ =>
      match clientIsNotExpired s clientData with
      | .error e => .error e
      | .ok _ =>
        match clientData.clientState with
        | .other _ _ => .error .clientTypeMismatch
        | .tendermint trustedClientState =>
          match msg.header with
          | .other => .error .headerTypeMismatch
          | .tendermint untrustedHeader =>
            .ok (clientData, trustedClientState, untrustedHeader)

/-- The tail of `UpdateClientCheck::validate` after the duplicate check:
revision check, height-monotonicity check, trusted-anchor fetch and
downcast, trusted-height conversion, validator-set hash check, construction
of the trusted and untrusted block states, options derivation, and the
verifier call with its verdict interpretation. -/
def validateRest (verifier : Verifier) (s : Store) (clientData : ClientData)
    (trustedClientState : TendermintClientState) (untrustedHeader : TendermintHeader) :
    Except Error Unit :=
  match headerRevisionMatchesClientState trustedClientState untrustedHeader with
  | .error e => .error e
  | .ok _ =>
    match headerHeightIsConsistent untrustedHeader with
    | .error e => .error e
    | .ok _ =>
      let trustedHeight := untrustedHeader.trustedHeight
      match s.consensusStateAt trustedHeight clientData.clientId with
      | none => .error .missingTrustedAnchor
      | some anchor =>
        match anchor.asTendermint with
        | .error e => .error e
        | .ok lastTrustedConsensusState =>
          match tmHeightTryFrom trustedHeight.revisionHeight with
          | .error e => .error e
          | .ok tmTrustedHeight =>
            match verifyHeaderValidatorSet untrustedHeader lastTrustedConsensusState with
            | .error e => .error e
            | .ok trustedValidatorSet =>
              let trustedState : TrustedBlockState :=
                { headerTime := lastTrustedConsensusState.timestamp
                  height := tmTrustedHeight
                  nextValidators := trustedValidatorSet
                  nextValidatorsHash := lastTrustedConsensusState.nextValidatorsHash }
              let untrustedState : UntrustedBlockState :=
                { signedHeader := untrustedHeader.signedHeader
                  validators := untrustedHeader.validatorSet
                  nextValidators := none }
              match asLightClientOptions trustedClientState with
              | .error e => .error e
              | .ok options =>
                match verifier untrustedState trustedState options s.blockTimestamp with
                | .success => .ok ()
                | .notEnoughTrust tally => .error (.insufficientTrust tally)
                | .invalid detail => .error (.invalidHeader detail)

/-- `UpdateClientCheck::validate`: the prefix checks, then the
duplicate-update short-circuit, then the rest of the pipeline. -/
def validateUpdate (verifier : Verifier) (s : Store) (msg : MsgUpdateAnyClient) :
    Except Error Unit :=
  match validatePrefix s msg with
  | .error e => .error e
  | .ok (clientData, trustedClientState, untrustedHeader) =>
    match updateIsAlreadyCommitted s clientData.clientId untrustedHeader with
    | .error e => .error e
    | .ok true => .error .alreadyCommitted
    | .ok false => validateRest verifier s clientData trustedClientState untrustedHeader

/-- The variant of `UpdateClientCheck::validate` with the duplicate-update
short-circuit removed and every other step identical (the comparison object
for the optimization claim). -/
def validateUpdateNoDup (verifier : Verifier) (s : Store) (msg : MsgUpdateAnyClient) :
    Except Error Unit :=
  match validatePrefix s msg with
  | .error e => .error e
  | .ok (clientData, trustedClientState, untrustedHeader) =>
    validateRest verifier s clientData trustedClientState untrustedHeader

/-! Concrete instances used by the witness theorems. `store0` holds one
healthy Tendermint client `cid0` whose latest verified consensus state sits
at height (0, 3); `hdr0` is a well-formed update of it to height (0, 5). -/

/-- Client id of the concrete scenario. -/
def cid0 : ClientId := ⟨.tendermint, 0⟩

/-- The consensus state stored at height (0, 3) in the concrete scenario. -/
def acs0 : TendermintConsensusState := ⟨50, 0, 7⟩

/-- The client state of the concrete scenario: revision 0, trust threshold
1/3, trusting period 100, latest height (0, 3), not frozen. -/
def tcs0 : TendermintClientState := ⟨0, 1, 3, 100, 5, false, ⟨0, 3⟩⟩

/-- The stored client record of the concrete scenario. -/
def cd0 : ClientData := ⟨cid0, .tendermint tcs0⟩

/-- A well-formed update header: claimed height (0, 5), trusted height
(0, 3), trusted validator set hashing to `acs0`'s next-validator-set
hash. -/
def hdr0 : TendermintHeader := ⟨⟨0, 5, 55, 8, 1, 0⟩, ⟨1, 9⟩, ⟨0, 3⟩, ⟨2, 7⟩⟩

/-- The concrete store: one client `cid0` with a consensus state at
(0, 3), block time 60 (10 ticks after the anchor, inside the trusting
period). -/
def store0 : Store :=
  { clientData := fun cid => if cid = cid0 then some cd0 else none
    consensusStateAt := fun ht cid =>
      if ht = (⟨0, 3⟩ : Height) ∧ cid = cid0 then some (.tendermint acs0) else none
    clientCounter := 1
    blockTimestamp := 60 }

/-- The well-formed update message for the concrete scenario. -/
def msg0 : MsgUpdateAnyClient := ⟨cid0, .tendermint hdr0⟩

/-- A verifier that accepts everything (models a run in which all commit
signatures verify). -/
def verifierAllSuccess : Verifier := fun _ _ _ _ => .success

/-- Claim C1: whenever the client exists, is not frozen, not expired, both
client state and header are of the Tendermint variant, the update is not a
committed duplicate, and the revision check passes, a header whose claimed
height is less than or equal to its own declared trusted height is rejected
with the height-not-monotonic error, for every verifier (so regardless of
whether the signatures would verify). -/
theorem update_rejects_nonmonotonic_height
    (s : Store) (msg : MsgUpdateAnyClient) (cd : ClientData)
    (tcs : TendermintClientState) (h : TendermintHeader)
    (hpres : s.clientData msg.clientId = some cd)
    (hfroz : tcs.frozen = false)
    (hexp : clientIsNotExpired s cd = .ok ())
    (hcs : cd.clientState = .tendermint tcs)
    (hhdr : msg.header = .tendermint h)
    (hdup : updateIsAlreadyCommitted s cd.clientId h = .ok false)
    (hrev : h.height.revisionNumber = tcs.chainIdVersion)
    (hle : Height.leb h.height h.trustedHeight = true) :
    ∀ verifier : Verifier, validateUpdate verifier s msg = .error .heightNotMonotonic := by
  intro verifier
  simp [validateUpdate, validatePrefix, hpres, clientIsNotFrozen, hcs, AnyClientState.isFrozen,
    hfroz, hexp, hhdr, hdup, validateRest, headerRevisionMatchesClientState, hrev,
    headerHeightIsConsistent, hle]

/-- A header identical to `hdr0` except that its claimed height (0, 2) is
below its trusted height (0, 3). -/
def hdrNonMono : TendermintHeader := ⟨⟨0, 2, 55, 8, 1, 0⟩, ⟨1, 9⟩, ⟨0, 3⟩, ⟨2, 7⟩⟩

/-- The update message carrying `hdrNonMono`. -/
def msgNonMono : MsgUpdateAnyClient := ⟨cid0, .tendermint hdrNonMono⟩

/-- Witness for claim C1: the concrete non-monotonic update is rejected
with the height-not-monotonic error even by the all-accepting verifier. -/
theorem update_rejects_nonmonotonic_height_witness :
    validateUpdate verifierAllSuccess store0 msgNonMono = .error .heightNotMonotonic :=
  update_rejects_nonmonotonic_height store0 msgNonMono cd0 tcs0 hdrNonMono rfl rfl rfl rfl rfl
    rfl rfl rfl verifierAllSuccess

/-- Claim C3: with the presence, frozen, expiry, type and duplicate checks
passing, a header whose height's revision number differs from the chain-id
version recorded in the stored client state is rejected with the
revision-mismatch error, for every verifier (so independent of signature
validity). -/
theorem update_rejects_revision_mismatch
    (s : Store) (msg : MsgUpdateAnyClient) (cd : ClientData)
    (tcs : TendermintClientState) (h : TendermintHeader)
    (hpres : s.clientData msg.clientId = some cd)
    (hfroz : tcs.frozen = false)
    (hexp : clientIsNotExpired s cd = .ok ())
    (hcs : cd.clientState = .tendermint tcs)
    (hhdr : msg.header = .tendermint h)
    (hdup : updateIsAlreadyCommitted s cd.clientId h = .ok false)
    (hrev : h.height.revisionNumber ≠ tcs.chainIdVersion) :
    ∀ verifier : Verifier, validateUpdate verifier s msg = .error .revisionMismatch := by
  intro verifier
  simp [validateUpdate, validatePrefix, hpres, clientIsNotFrozen, hcs, AnyClientState.isFrozen,
    hfroz, hexp, hhdr, hdup, validateRest, headerRevisionMatchesClientState, hrev]

/-- A header identical to `hdr0` except that its chain-id revision is 9,
so its claimed height is (9, 5) while the client records revision 0. -/
def hdrWrongRev : TendermintHeader := ⟨⟨9, 5, 55, 8, 1, 0⟩, ⟨1, 9⟩, ⟨0, 3⟩, ⟨2, 7⟩⟩

/-- The update message carrying `hdrWrongRev`. -/
def msgWrongRev : MsgUpdateAnyClient := ⟨cid0, .tendermint hdrWrongRev⟩

/-- Witness for claim C3: the concrete wrong-revision update is rejected
with the revision-mismatch error even by the all-accepting verifier. -/
theorem update_rejects_revision_mismatch_witness :
    validateUpdate verifierAllSuccess store0 msgWrongRev = .error .revisionMismatch :=
  update_rejects_revision_mismatch store0 msgWrongRev cd0 tcs0 hdrWrongRev rfl rfl rfl rfl rfl
    rfl (by decide) verifierAllSuccess

/-- Claim C4: with the presence, frozen, expiry and type checks passing, if
the store already holds, at the header's claimed height for this client, a
consensus state identical to the one this header would commit, the update
is rejected with the already-committed error, for every verifier (so the
cryptographic verifier is never consulted). -/
theorem update_rejects_already_committed
    (s : Store) (msg : MsgUpdateAnyClient) (cd : ClientData)
    (tcs : TendermintClientState) (h : TendermintHeader) (c : TendermintConsensusState)
    (hpres : s.clientData msg.clientId = some cd)
    (hfroz : tcs.frozen = false)
    (hexp : clientIsNotExpired s cd = .ok ())
    (hcs : cd.clientState = .tendermint tcs)
    (hhdr : msg.header = .tendermint h)
    (hstored : s.consensusStateAt h.height cd.clientId = some (.tendermint c))
    (hsame : c = tendermintConsensusStateFrom h) :
    ∀ verifier : Verifier, validateUpdate verifier s msg = .error .alreadyCommitted := by
  intro verifier
  simp [validateUpdate, validatePrefix, hpres, clientIsNotFrozen, hcs, AnyClientState.isFrozen,
    hfroz, hexp, hhdr, updateIsAlreadyCommitted, hstored, AnyConsensusState.asTendermint, hsame]

/-- The store of the concrete scenario after `hdr0`'s update has been
committed: the consensus state derived from `hdr0` is stored at its claimed
height (0, 5), alongside the anchor at (0, 3). -/
def storeDup : Store :=
  { clientData := fun cid => if cid = cid0 then some cd0 else none
    consensusStateAt := fun ht cid =>
      if ht = (⟨0, 3⟩ : Height) ∧ cid = cid0 then some (.tendermint acs0)
      else if ht = (⟨0, 5⟩ : Height) ∧ cid = cid0 then
        some (.tendermint (tendermintConsensusStateFrom hdr0))
      else none
    clientCounter := 1
    blockTimestamp := 60 }

/-- Witness for claim C4: re-submitting `hdr0` against `storeDup` is
rejected with the already-committed error even by the all-accepting
verifier. -/
theorem update_rejects_already_committed_witness :
    validateUpdate verifierAllSuccess storeDup msg0 = .error .alreadyCommitted :=
  update_rejects_already_committed storeDup msg0 cd0 tcs0 hdr0
    (tendermintConsensusStateFrom hdr0) rfl rfl rfl rfl rfl rfl rfl verifierAllSuccess

/-- Claim C2: with every earlier pipeline step passing (presence, frozen,
expiry, type, duplicate, revision, height, anchor fetch and downcast,
trusted-height conversion), a header whose declared trusted validator set
hashes differently from the next-validator-set hash of the stored trusted
consensus state is rejected with the validator-set-hash-mismatch error, for
every verifier (so the cryptographic verifier is never invoked). -/
theorem update_rejects_validator_hash_mismatch
    (s : Store) (msg : MsgUpdateAnyClient) (cd : ClientData)
    (tcs : TendermintClientState) (h : TendermintHeader) (acs : TendermintConsensusState)
    (hpres : s.clientData msg.clientId = some cd)
    (hfroz : tcs.frozen = false)
    (hexp : clientIsNotExpired s cd = .ok ())
    (hcs : cd.clientState = .tendermint tcs)
    (hhdr : msg.header = .tendermint h)
    (hdup : updateIsAlreadyCommitted s cd.clientId h = .ok false)
    (hrev : h.height.revisionNumber = tcs.chainIdVersion)
    (hle : Height.leb h.height h.trustedHeight = false)
    (hanchor : s.consensusStateAt h.trustedHeight cd.clientId = some (.tendermint acs))
    (hconv : h.trustedHeight.revisionHeight < 2 ^ 63)
    (hhash : h.trustedValidatorSet.hash ≠ acs.nextValidatorsHash) :
    ∀ verifier : Verifier, validateUpdate verifier s msg = .error .validatorSetHashMismatch := by
  intro verifier
  have hconv9 : h.trustedHeight.revisionHeight < 9223372036854775808 := by simpa using hconv
  simp [validateUpdate, validatePrefix, hpres, clientIsNotFrozen, hcs, AnyClientState.isFrozen,
    hfroz, hexp, hhdr, hdup, validateRest, headerRevisionMatchesClientState, hrev,
    headerHeightIsConsistent, hle, hanchor, AnyConsensusState.asTendermint, tmHeightTryFrom,
    hconv9, verifyHeaderValidatorSet, hhash]

/-- A header identical to `hdr0` except that its declared trusted validator
set hashes to 6 instead of the recorded 7. -/
def hdrBadHash : TendermintHeader := ⟨⟨0, 5, 55, 8, 1, 0⟩, ⟨1, 9⟩, ⟨0, 3⟩, ⟨2, 6⟩⟩

/-- The update message carrying `hdrBadHash`. -/
def msgBadHash : MsgUpdateAnyClient := ⟨cid0, .tendermint hdrBadHash⟩

/-- Witness for claim C2: the concrete mismatching-hash update is rejected
with the validator-set-hash-mismatch error even by the all-accepting
verifier. -/
theorem update_rejects_validator_hash_mismatch_witness :
    validateUpdate verifierAllSuccess store0 msgBadHash = .error .validatorSetHashMismatch :=
  update_rejects_validator_hash_mismatch store0 msgBadHash cd0 tcs0 hdrBadHash acs0 rfl rfl rfl
    rfl rfl rfl rfl rfl rfl (by decide) (by decide) verifierAllSuccess

/-- Claim C10: if the client is present and not frozen, and the current
block timestamp is strictly earlier than the timestamp of the consensus
state stored at the client's latest verified height, validation fails
during the expiry check with the negative-elapsed-duration error (not with
the expired error), for every verifier. -/
theorem update_rejects_block_time_behind_anchor
    (s : Store) (msg : MsgUpdateAnyClient) (cd : ClientData) (lc : TendermintConsensusState)
    (hpres : s.clientData msg.clientId = some cd)
    (hfroz : cd.clientState.isFrozen = false)
    (hlatest : s.consensusStateAt cd.clientState.latestHeight cd.clientId =
      some (.tendermint lc))
    (hbehind : s.blockTimestamp < lc.timestamp) :
    ∀ verifier : Verifier, validateUpdate verifier s msg = .error .negativeElapsed := by
  intro verifier
  simp [validateUpdate, validatePrefix, hpres, clientIsNotFrozen, hfroz, clientIsNotExpired,
    hlatest, durationSince, hbehind]

/-- The concrete store with its block timestamp (40) behind the timestamp
(50) of the latest stored consensus state. -/
def storeBehind : Store :=
  { clientData := fun cid => if cid = cid0 then some cd0 else none
    consensusStateAt := fun ht cid =>
      if ht = (⟨0, 3⟩ : Height) ∧ cid = cid0 then some (.tendermint acs0) else none
    clientCounter := 1
    blockTimestamp := 40 }

/-- Witness for claim C10: against `storeBehind` the otherwise well-formed
update `msg0` fails with the negative-elapsed-duration error. -/
theorem update_rejects_block_time_behind_anchor_witness :
    validateUpdate verifierAllSuccess storeBehind msg0 = .error .negativeElapsed :=
  update_rejects_block_time_behind_anchor storeBehind msg0 cd0 acs0 rfl rfl rfl (by decide)
    verifierAllSuccess

/-- Claim C6: when every structural check passes (presence, frozen, expiry,
type, duplicate, revision, height, anchor, trusted-height conversion,
validator-set hash, options), the overall result is the verifier's verdict
mapped exactly as: success to success, not-enough-trust to an
insufficient-trust error carrying the tally, invalid to an invalid-header
error carrying the detail. -/
theorem update_verdict_mapping
    (s : Store) (msg : MsgUpdateAnyClient) (cd : ClientData)
    (tcs : TendermintClientState) (h : TendermintHeader) (acs : TendermintConsensusState)
    (opts : Options)
    (hpres : s.clientData msg.clientId = some cd)
    (hfroz : tcs.frozen = false)
    (hexp : clientIsNotExpired s cd = .ok ())
    (hcs : cd.clientState = .tendermint tcs)
    (hhdr : msg.header = .tendermint h)
    (hdup : updateIsAlreadyCommitted s cd.clientId h = .ok false)
    (hrev : h.height.revisionNumber = tcs.chainIdVersion)
    (hle : Height.leb h.height h.trustedHeight = false)
    (hanchor : s.consensusStateAt h.trustedHeight cd.clientId = some (.tendermint acs))
    (hconv : h.trustedHeight.revisionHeight < 2 ^ 63)
    (hhash : h.trustedValidatorSet.hash = acs.nextValidatorsHash)
    (hopts : asLightClientOptions tcs = .ok opts)
    (verifier : Verifier) :
    (verifier ⟨h.signedHeader, h.validatorSet, none⟩
        ⟨acs.timestamp, h.trustedHeight.revisionHeight, h.trustedValidatorSet,
          acs.nextValidatorsHash⟩ opts s.blockTimestamp = .success →
      validateUpdate verifier s msg = .ok ())
    ∧ (∀ tally, verifier ⟨h.signedHeader, h.validatorSet, none⟩
        ⟨acs.timestamp, h.trustedHeight.revisionHeight, h.trustedValidatorSet,
          acs.nextValidatorsHash⟩ opts s.blockTimestamp = .notEnoughTrust tally →
      validateUpdate verifier s msg = .error (.insufficientTrust tally))
    ∧ (∀ detail, verifier ⟨h.signedHeader, h.validatorSet, none⟩
        ⟨acs.timestamp, h.trustedHeight.revisionHeight, h.trustedValidatorSet,
          acs.nextValidatorsHash⟩ opts s.blockTimestamp = .invalid detail →
      validateUpdate verifier s msg = .error (.invalidHeader detail)) := by
  have hconv9 : h.trustedHeight.revisionHeight < 9223372036854775808 := by simpa using hconv
  refine ⟨fun hv => ?_, fun tally hv => ?_, fun detail hv => ?_⟩ <;>
    simp [validateUpdate, validatePrefix, hpres, clientIsNotFrozen, hcs,
      AnyClientState.isFrozen, hfroz, hexp, hhdr, hdup, validateRest,
      headerRevisionMatchesClientState, hrev, headerHeightIsConsistent, hle, hanchor,
      AnyConsensusState.asTendermint, tmHeightTryFrom, hconv9, verifyHeaderValidatorSet, hhash,
      hopts, hv]

/-- A verifier that always reports insufficient trust with tally 42. -/
def verifierNotEnough : Verifier := fun _ _ _ _ => .notEnoughTrust 42

/-- The options derived from `tcs0`. -/
def opts0 : Options := ⟨1, 3, 100, 5⟩

/-- Witness for claim C6: against the healthy concrete scenario, a verifier
reporting insufficient trust with tally 42 makes validation fail with the
insufficient-trust error carrying 42. -/
theorem update_verdict_mapping_witness :
    validateUpdate verifierNotEnough store0 msg0 = .error (.insufficientTrust 42) :=
  (update_verdict_mapping store0 msg0 cd0 tcs0 hdr0 acs0 opts0 rfl rfl rfl rfl rfl rfl rfl rfl
    rfl (by decide) rfl rfl verifierNotEnough).2.1 42 rfl

/-- Claim C5, counterexample: the duplicate-update short-circuit is not
outcome-preserving. Against `storeDup` (where `hdr0`'s consensus state is
already committed at its claimed height) and an all-accepting verifier,
validation with the duplicate check rejects with the already-committed
error while the variant without the check succeeds. -/
theorem dup_check_changes_outcome :
    validateUpdate verifierAllSuccess storeDup msg0 = .error .alreadyCommitted ∧
      validateUpdateNoDup verifierAllSuccess storeDup msg0 = .ok () :=
  ⟨rfl, rfl⟩

/-- Claim C5, amended: removing the duplicate check preserves success in
one direction only — whenever validation with the duplicate check returns
success, the variant without it returns success on the same input. -/
theorem dup_skip_preserves_success (verifier : Verifier) (s : Store) (msg : MsgUpdateAnyClient)
    (hok : validateUpdate verifier s msg = .ok ()) :
    validateUpdateNoDup verifier s msg = .ok () := by
  unfold validateUpdate at hok
  unfold validateUpdateNoDup
  cases hp : validatePrefix s msg with
  | error e => simp [hp] at hok
  | ok tup =>
    obtain ⟨cd, tcs, h⟩ := tup
    simp only [hp] at hok ⊢
    cases hd : updateIsAlreadyCommitted s cd.clientId h with
    | error e => simp [hd] at hok
    | ok b =>
      cases b with
      | true => simp [hd] at hok
      | false => simpa [hd] using hok

/-- Witness for the amended claim C5: the healthy concrete update succeeds
with the duplicate check, hence also without it. -/
theorem dup_skip_preserves_success_witness :
    validateUpdateNoDup verifierAllSuccess store0 msg0 = .ok () :=
  dup_skip_preserves_success verifierAllSuccess store0 msg0 rfl

/-- The client state of the cross-revision scenario: chain revision 1,
latest height (0, 3). -/
def tcsRev1 : TendermintClientState := ⟨1, 1, 3, 100, 5, false, ⟨0, 3⟩⟩

/-- The stored client record of the cross-revision scenario. -/
def cdRev1 : ClientData := ⟨cid0, .tendermint tcsRev1⟩

/-- A header whose claimed height (1, 5) and declared trusted height
(0, 3) carry different revision numbers, while its revision matches the
client's chain revision 1. -/
def hdrCrossRev : TendermintHeader := ⟨⟨1, 5, 55, 8, 1, 0⟩, ⟨1, 9⟩, ⟨0, 3⟩, ⟨2, 7⟩⟩

/-- The cross-revision store: client `cid0` at chain revision 1 with its
anchor at height (0, 3). -/
def storeCrossRev : Store :=
  { clientData := fun cid => if cid = cid0 then some cdRev1 else none
    consensusStateAt := fun ht cid =>
      if ht = (⟨0, 3⟩ : Height) ∧ cid = cid0 then some (.tendermint acs0) else none
    clientCounter := 1
    blockTimestamp := 60 }

/-- The update message carrying `hdrCrossRev`. -/
def msgCrossRev : MsgUpdateAnyClient := ⟨cid0, .tendermint hdrCrossRev⟩

/-- Claim C8, counterexample: a header whose claimed height and declared
trusted height carry different revision numbers is not rejected via a
revision-mismatch path — against `storeCrossRev` the update is accepted
outright, its height-monotonicity check having been decided by the
lexicographic ordering of the two differently-revisioned heights. -/
theorem cross_revision_heights_compared :
    hdrCrossRev.height.revisionNumber ≠ hdrCrossRev.trustedHeight.revisionNumber ∧
      validateUpdate verifierAllSuccess storeCrossRev msgCrossRev = .ok () :=
  ⟨by decide, rfl⟩

/-- Claim C8, amended: when the header's claimed height and its declared
trusted height carry different revision numbers (under the presence,
frozen, expiry, type and duplicate preconditions), validation rejects with
the revision-mismatch error precisely when the claimed height's revision
also differs from the client's recorded chain revision; when it matches the
client's revision instead, the height-monotonicity check is decided by the
lexicographic ordering of the two heights despite their differing revision
numbers. -/
theorem cross_revision_behavior
    (s : Store) (msg : MsgUpdateAnyClient) (cd : ClientData)
    (tcs : TendermintClientState) (h : TendermintHeader)
    (hpres : s.clientData msg.clientId = some cd)
    (hfroz : tcs.frozen = false)
    (hexp : clientIsNotExpired s cd = .ok ())
    (hcs : cd.clientState = .tendermint tcs)
    (hhdr : msg.header = .tendermint h)
    (hdup : updateIsAlreadyCommitted s cd.clientId h = .ok false)
    (_hneq : h.height.revisionNumber ≠ h.trustedHeight.revisionNumber) :
    (h.height.revisionNumber ≠ tcs.chainIdVersion →
      ∀ verifier : Verifier, validateUpdate verifier s msg = .error .revisionMismatch)
    ∧ (h.height.revisionNumber = tcs.chainIdVersion →
      Height.leb h.height h.trustedHeight = true →
      ∀ verifier : Verifier, validateUpdate verifier s msg = .error .heightNotMonotonic) := by
  constructor
  · intro hrev verifier
    simp [validateUpdate, validatePrefix, hpres, clientIsNotFrozen, hcs,
      AnyClientState.isFrozen, hfroz, hexp, hhdr, hdup, validateRest,
      headerRevisionMatchesClientState, hrev]
  · intro hrev hle verifier
    simp [validateUpdate, validatePrefix, hpres, clientIsNotFrozen, hcs,
      AnyClientState.isFrozen, hfroz, hexp, hhdr, hdup, validateRest,
      headerRevisionMatchesClientState, hrev, headerHeightIsConsistent, hle]

/-- A header whose claimed height (0, 2) is lexicographically below its
declared trusted height (1, 9) of a different revision, against a client at
chain revision 0. -/
def hdrCrossLow : TendermintHeader := ⟨⟨0, 2, 55, 8, 1, 0⟩, ⟨1, 9⟩, ⟨1, 9⟩, ⟨2, 7⟩⟩

/-- The update message carrying `hdrCrossLow`. -/
def msgCrossLow : MsgUpdateAnyClient := ⟨cid0, .tendermint hdrCrossLow⟩

/-- Witness for the amended claim C8: the concrete cross-revision header
whose claimed height is lexicographically below its trusted height is
rejected by the height-monotonicity check, not by a revision path. -/
theorem cross_revision_behavior_witness :
    validateUpdate verifierAllSuccess store0 msgCrossLow = .error .heightNotMonotonic :=
  (cross_revision_behavior store0 msgCrossLow cd0 tcs0 hdrCrossLow rfl rfl rfl rfl rfl rfl
    (by decide)).2 rfl rfl verifierAllSuccess

/-- The eleven-error taxonomy of the specification, as a predicate on the
error outcomes (both type-mismatch downcast failures count as the
taxonomy's TypeMismatch). -/
def inTaxonomy : Error → Bool
  | .notFound => true
  | .frozen => true
  | .expired => true
  | .clientTypeMismatch => true
  | .headerTypeMismatch => true
  | .alreadyCommitted => true
  | .revisionMismatch => true
  | .heightNotMonotonic => true
  | .missingTrustedAnchor => true
  | .validatorSetHashMismatch => true
  | .insufficientTrust _ => true
  | .invalidHeader _ => true
  | .latestConsensusNotFound => false
  | .negativeElapsed => false
  | .consensusNotTendermint => false
  | .invalidHeaderHeight => false
  | .optionsError => false

/-- Claim C9, counterexample: a reachable failure outside the eleven-error
taxonomy — against `storeBehind`, whose block time sits behind the trusted
anchor's timestamp, validation fails with the negative-elapsed-duration
error, which is none of the eleven taxonomy errors. -/
theorem taxonomy_incomplete :
    validateUpdate verifierAllSuccess storeBehind msgWrongRev = .error .negativeElapsed ∧
      inTaxonomy .negativeElapsed = false :=
  ⟨rfl, rfl⟩

/-- Claim C9, amended: both validators are total (never panic), the
creation check never errors, and every error the update validator can
return is one of the eleven taxonomy errors or one of five additional
propagated failures of the same source file: missing consensus state at
the client's latest height, negative elapsed time, a stored consensus
state that is not of the Tendermint variant, a trusted revision height
exceeding the Tendermint height range, and invalid trust-threshold
options. -/
theorem validators_error_enumeration :
    (∀ (s : Store) (msg : MsgCreateAnyClient), createValidate s msg = .ok ())
    ∧ (∀ (verifier : Verifier) (s : Store) (msg : MsgUpdateAnyClient) (e : Error),
        validateUpdate verifier s msg = .error e →
          inTaxonomy e = true ∨ e = .latestConsensusNotFound ∨ e = .negativeElapsed ∨
            e = .consensusNotTendermint ∨ e = .invalidHeaderHeight ∨ e = .optionsError) := by
  refine ⟨fun s msg => rfl, fun verifier s msg e _ => ?_⟩
  cases e <;> simp [inTaxonomy]

/-- Witness for the amended claim C9, at the concrete negative-elapsed
failure of `storeBehind`. -/
theorem validators_error_enumeration_witness :
    inTaxonomy .negativeElapsed = true ∨ Error.negativeElapsed = .latestConsensusNotFound ∨
      Error.negativeElapsed = .negativeElapsed ∨
      Error.negativeElapsed = .consensusNotTendermint ∨
      Error.negativeElapsed = .invalidHeaderHeight ∨
      Error.negativeElapsed = .optionsError :=
  validators_error_enumeration.2 verifierAllSuccess storeBehind msgWrongRev .negativeElapsed rfl

/-- Claim C7: the checks run in the fixed order presence, not-frozen,
not-expired, type-match (client state then header), duplicate
short-circuit, revision-match, height-monotonic, trust-chain resolution,
validator-set hash, cryptographic verification; on any input the returned
error is the one of the earliest failing check given all earlier checks
passed, and every conclusion below the cryptographic step holds for an
arbitrary verifier, so the verifier is never consulted on those paths.
(The trusted-height conversion belongs to the trust-chain-resolution
stage, the options derivation to the cryptographic stage.) -/
theorem update_pipeline_order (s : Store) (msg : MsgUpdateAnyClient) (verifier : Verifier) :
    (s.clientData msg.clientId = none → validateUpdate verifier s msg = .error .notFound)
    ∧ (∀ cd, s.clientData msg.clientId = some cd → cd.clientState.isFrozen = true →
        validateUpdate verifier s msg = .error .frozen)
    ∧ (∀ cd e, s.clientData msg.clientId = some cd → cd.clientState.isFrozen = false →
        clientIsNotExpired s cd = .error e → validateUpdate verifier s msg = .error e)
    ∧ (∀ cd f lh, s.clientData msg.clientId = some cd → cd.clientState.isFrozen = false →
        clientIsNotExpired s cd = .ok () → cd.clientState = .other f lh →
        validateUpdate verifier s msg = .error .clientTypeMismatch)
    ∧ (∀ cd tcs, s.clientData msg.clientId = some cd → tcs.frozen = false →
        clientIsNotExpired s cd = .ok () → cd.clientState = .tendermint tcs →
        msg.header = .other → validateUpdate verifier s msg = .error .headerTypeMismatch)
    ∧ (∀ cd tcs h, s.clientData msg.clientId = some cd → tcs.frozen = false →
        clientIsNotExpired s cd = .ok () → cd.clientState = .tendermint tcs →
        msg.header = .tendermint h → updateIsAlreadyCommitted s cd.clientId h = .ok true →
        validateUpdate verifier s msg = .error .alreadyCommitted)
    ∧ (∀ cd tcs h, s.clientData msg.clientId = some cd → tcs.frozen = false →
        clientIsNotExpired s cd = .ok () → cd.clientState = .tendermint tcs →
        msg.header = .tendermint h → updateIsAlreadyCommitted s cd.clientId h = .ok false →
        h.height.revisionNumber ≠ tcs.chainIdVersion →
        validateUpdate verifier s msg = .error .revisionMismatch)
    ∧ (∀ cd tcs h, s.clientData msg.clientId = some cd → tcs.frozen = false →
        clientIsNotExpired s cd = .ok () → cd.clientState = .tendermint tcs →
        msg.header = .tendermint h → updateIsAlreadyCommitted s cd.clientId h = .ok false →
        h.height.revisionNumber = tcs.chainIdVersion →
        Height.leb h.height h.trustedHeight = true →
        validateUpdate verifier s msg = .error .heightNotMonotonic)
    ∧ (∀ cd tcs h, s.clientData msg.clientId = some cd → tcs.frozen = false →
        clientIsNotExpired s cd = .ok () → cd.clientState = .tendermint tcs →
        msg.header = .tendermint h → updateIsAlreadyCommitted s cd.clientId h = .ok false →
        h.height.revisionNumber = tcs.chainIdVersion →
        Height.leb h.height h.trustedHeight = false →
        s.consensusStateAt h.trustedHeight cd.clientId = none →
        validateUpdate verifier s msg = .error .missingTrustedAnchor)
    ∧ (∀ cd tcs h acs, s.clientData msg.clientId = some cd → tcs.frozen = false →
        clientIsNotExpired s cd = .ok () → cd.clientState = .tendermint tcs →
        msg.header = .tendermint h → updateIsAlreadyCommitted s cd.clientId h = .ok false →
        h.height.revisionNumber = tcs.chainIdVersion →
        Height.leb h.height h.trustedHeight = false →
        s.consensusStateAt h.trustedHeight cd.clientId = some (.tendermint acs) →
        h.trustedHeight.revisionHeight < 2 ^ 63 →
        h.trustedValidatorSet.hash ≠ acs.nextValidatorsHash →
        validateUpdate verifier s msg = .error .validatorSetHashMismatch) := by
  refine ⟨?_, ?_, ?_, ?_, ?_, ?_, ?_, ?_, ?_, ?_⟩
  · intro hpres
    simp [validateUpdate, validatePrefix, hpres]
  · intro cd hpres hfroz
    simp [validateUpdate, validatePrefix, hpres, clientIsNotFrozen, hfroz]
  · intro cd e hpres hfroz hexp
    simp [validateUpdate, validatePrefix, hpres, clientIsNotFrozen, hfroz, hexp]
  · intro cd f lh hpres hfroz hexp hcs
    have hf : f = false := by rw [hcs] at hfroz; simpa [AnyClientState.isFrozen] using hfroz
    simp [validateUpdate, validatePrefix, hpres, clientIsNotFrozen, hcs,
      AnyClientState.isFrozen, hf, hexp]
  · intro cd tcs hpres hfroz hexp hcs hhdr
    simp [validateUpdate, validatePrefix, hpres, clientIsNotFrozen, hcs,
      AnyClientState.isFrozen, hfroz, hexp, hhdr]
  · intro cd tcs h hpres hfroz hexp hcs hhdr hdup
    simp [validateUpdate, validatePrefix, hpres, clientIsNotFrozen, hcs,
      AnyClientState.isFrozen, hfroz, hexp, hhdr, hdup]
  · intro cd tcs h hpres hfroz hexp hcs hhdr hdup hrev
    simp [validateUpdate, validatePrefix, hpres, clientIsNotFrozen, hcs,
      AnyClientState.isFrozen, hfroz, hexp, hhdr, hdup, validateRest,
      headerRevisionMatchesClientState, hrev]
  · intro cd tcs h hpres hfroz hexp hcs hhdr hdup hrev hle
    simp [validateUpdate, validatePrefix, hpres, clientIsNotFrozen, hcs,
      AnyClientState.isFrozen, hfroz, hexp, hhdr, hdup, validateRest,
      headerRevisionMatchesClientState, hrev, headerHeightIsConsistent, hle]
  · intro cd tcs h hpres hfroz hexp hcs hhdr hdup hrev hle hanchor
    simp [validateUpdate, validatePrefix, hpres, clientIsNotFrozen, hcs,
      AnyClientState.isFrozen, hfroz, hexp, hhdr, hdup, validateRest,
      headerRevisionMatchesClientState, hrev, headerHeightIsConsistent, hle, hanchor]
  · intro cd tcs h acs hpres hfroz hexp hcs hhdr hdup hrev hle hanchor hconv hhash
    have hconv9 : h.trustedHeight.revisionHeight < 9223372036854775808 := by simpa using hconv
    simp [validateUpdate, validatePrefix, hpres, clientIsNotFrozen, hcs,
      AnyClientState.isFrozen, hfroz, hexp, hhdr, hdup, validateRest,
      headerRevisionMatchesClientState, hrev, headerHeightIsConsistent, hle, hanchor,
      AnyConsensusState.asTendermint, tmHeightTryFrom, hconv9, verifyHeaderValidatorSet, hhash]

/-- An update message addressed to a client id that is not in the store. -/
def msgUnknown : MsgUpdateAnyClient := ⟨⟨.tendermint, 99⟩, .tendermint hdr0⟩

/-- Witness for claim C7, at the first stage: an update for an unknown
client id is rejected with the not-found error. -/
theorem update_pipeline_order_witness :
    validateUpdate verifierAllSuccess store0 msgUnknown = .error .notFound :=
  (update_pipeline_order store0 msgUnknown verifierAllSuccess).1 rfl

end IbcClient
